import Mathlib

/-!
Shallow embedding of the emergency-room data generator
(`generate_er_data.py`) and proofs about its event-generation model.

Randomness is embedded as explicit draw streams:
* `u : ℕ → ℚ` models the stream of unit draws produced by the seeded
  Python `random` module (`random.random()` values in `[0, 1)`), consumed
  in program order; `random.uniform`, `random.randint` and `random.choice`
  are modelled as the standard transformations of one unit draw.
* `e : ℕ → ℚ` models the stream of standard-exponential draws produced by
  the seeded `np.random` generator (`np.random.exponential(s) = s * e i`).
* `FakerStreams` models the seeded `faker` provider: one birth date (days
  relative to an epoch) and one name / address / phone string per patient.

Timestamps are rationals counting minutes from the window's day-0 midnight
(so `datetime.hour` becomes `hourOf`); dates are integers counting days.
The wall-clock date used by `datetime.now().date()` in `select_condition`
is the explicit parameter `today`.
-/

namespace ERGen

/-- One record of the static condition table (`ER_CONDITIONS` and the
age-specific extensions): display name, ICD-10 code, severity tier and
average duration in minutes. -/
structure CondInfo where
  name : String
  icd10 : String
  severity : String
  avg_duration_min : ℤ
deriving DecidableEq, Repr

instance : Inhabited CondInfo := ⟨⟨"Chest Pain", "R06.02", "high", 180⟩⟩

/-- The 20-entry base condition table (source lines 32-53). -/
def ER_CONDITIONS : List CondInfo := [
  ⟨"Chest Pain", "R06.02", "high", 180⟩,
  ⟨"Abdominal Pain", "R10.9", "medium", 120⟩,
  ⟨"Shortness of Breath", "R06.02", "high", 150⟩,
  ⟨"Fever", "R50.9", "medium", 90⟩,
  ⟨"Headache", "R51", "low", 60⟩,
  ⟨"Trauma - Laceration", "S01.9", "medium", 90⟩,
  ⟨"Fracture", "S72.9", "high", 240⟩,
  ⟨"Asthma Exacerbation", "J45.901", "high", 180⟩,
  ⟨"Hypertension", "I10", "medium", 120⟩,
  ⟨"Urinary Tract Infection", "N39.0", "medium", 100⟩,
  ⟨"Pneumonia", "J18.9", "high", 300⟩,
  ⟨"Dehydration", "E86.0", "medium", 120⟩,
  ⟨"Gastroenteritis", "K52.9", "medium", 150⟩,
  ⟨"Back Pain", "M54.5", "low", 90⟩,
  ⟨"Seizure", "R56.9", "high", 200⟩,
  ⟨"Syncope", "R55", "medium", 120⟩,
  ⟨"Alcohol Intoxication", "F10.129", "medium", 180⟩,
  ⟨"Drug Overdose", "T50.901A", "high", 240⟩,
  ⟨"Burn", "T30.0", "high", 200⟩,
  ⟨"Anaphylaxis", "T78.2XXA", "high", 150⟩]

/-- The two pediatric extension conditions (source lines 137-140). -/
def pediatricConditions : List CondInfo := [
  ⟨"Pediatric Fever", "R50.9", "medium", 90⟩,
  ⟨"Croup", "J05.0", "medium", 120⟩]

/-- The two geriatric extension conditions (source lines 143-146). -/
def geriatricConditions : List CondInfo := [
  ⟨"Fall", "W19.XXXA", "high", 180⟩,
  ⟨"Confusion", "R41.82", "medium", 150⟩]

/-- One entry of the `VITAL_SIGNS` table: vital name, unit, normal range
and abnormal range (source lines 56-63). -/
structure VitalSpec where
  vname : String
  unit : String
  nlo : ℚ
  nhi : ℚ
  alo : ℚ
  ahi : ℚ
deriving DecidableEq, Repr

/-- The six-entry vital-sign range table, in source iteration order. -/
def VITAL_SIGNS : List VitalSpec := [
  ⟨"temperature", "F", 97, 199/2, 95, 104⟩,
  ⟨"heart_rate", "bpm", 60, 100, 40, 150⟩,
  ⟨"blood_pressure_systolic", "mmHg", 90, 120, 70, 180⟩,
  ⟨"blood_pressure_diastolic", "mmHg", 60, 80, 40, 120⟩,
  ⟨"respiratory_rate", "/min", 12, 20, 8, 30⟩,
  ⟨"oxygen_saturation", "%", 95, 100, 85, 100⟩]

/-- Model of `random.random()`: the next unit draw and the advanced
stream index. -/
def pyRandom (u : ℕ → ℚ) (i : ℕ) : ℚ × ℕ := (u i, i + 1)

/-- Model of `random.uniform a b`: `a + (b - a) * random()`. -/
def pyUniform (u : ℕ → ℚ) (a b : ℚ) (i : ℕ) : ℚ × ℕ := (a + (b - a) * u i, i + 1)

/-- Model of `random.randint a b`: inclusive-bounds integer draw obtained
by scaling one unit draw. -/
def pyRandint (u : ℕ → ℚ) (a b : ℤ) (i : ℕ) : ℤ × ℕ :=
  (a + ⌊u i * ((b : ℚ) - (a : ℚ) + 1)⌋, i + 1)

/-- Model of `random.choice l`: the element at index `⌊random() * len⌋`,
consuming one unit draw. -/
def pyChoice {α : Type} [Inhabited α] (u : ℕ → ℚ) (l : List α) (i : ℕ) : α × ℕ :=
  (l.getD (⌊u i * (l.length : ℚ)⌋).toNat default, i + 1)

/-- Model of Python `int()` on a float: truncation toward zero. -/
def pyInt (x : ℚ) : ℤ := if 0 ≤ x then ⌊x⌋ else -⌊-x⌋

/-- `datetime.hour` for a timestamp measured in minutes from day-0
midnight. -/
def hourOf (t : ℚ) : ℤ := ⌊t / 60⌋ % 24

/-- Python `round(x, 1)`: round to one decimal place (tie behaviour is
irrelevant to every property proved here). -/
def round1 (x : ℚ) : ℚ := ((round (10 * x) : ℤ) : ℚ) / 10

/-- The instantaneous rate draw of `generate_arrival_times` (source lines
91-97): one `random.uniform` draw from the bucket determined by the
hour of day. -/
def lamDraw (u : ℕ → ℚ) (h : ℤ) (i : ℕ) : ℚ :=
  if 18 ≤ h ∨ h < 2 then (pyUniform u 4 8 i).1
  else if 2 ≤ h ∧ h < 8 then (pyUniform u 1 3 i).1
  else (pyUniform u 2 5 i).1

/-- Advance the current time by one exponential inter-arrival gap
(source lines 100-101): `np.random.exponential(60 / lambda_rate)` is
modelled as `60 / lambda * e j` with `e j` a standard-exponential draw. -/
def nextTime (u e : ℕ → ℚ) (current : ℚ) (i j : ℕ) : ℚ :=
  current + 60 / lamDraw u (hourOf current) i * e j

/-- Loop body of `generate_arrival_times` (source lines 89-104), with an
explicit fuel bound standing for the unbounded `while`. Returns the
arrival list together with the advanced python-random index; `j` is the
numpy-stream index. -/
def arrivalsAux (u e : ℕ → ℚ) (endT : ℚ) : ℕ → ℚ → ℕ → ℕ → List ℚ × ℕ
  | 0, _, i, _ => ([], i)
  | fuel + 1, current, i, j =>
    if current < endT then
      if nextTime u e current i j < endT then
        (nextTime u e current i j ::
          (arrivalsAux u e endT fuel (nextTime u e current i j) (i + 1) (j + 1)).1,
         (arrivalsAux u e endT fuel (nextTime u e current i j) (i + 1) (j + 1)).2)
      else ([], i + 1)
    else ([], i)

/-- `ERDataGenerator.generate_arrival_times` (source lines 83-106). -/
def generate_arrival_times (u e : ℕ → ℚ) (start endT : ℚ) (fuel : ℕ) : List ℚ × ℕ :=
  arrivalsAux u e endT fuel start 0 0

/-- Model of the seeded `faker` provider: the values returned by the k-th
`date_of_birth` / `name` / `address` / `phone_number` call. -/
structure FakerStreams where
  birth : ℕ → ℤ
  pname : ℕ → String
  addr : ℕ → String
  phone : ℕ → String

/-- The patient dictionary built by `generate_patient` (source lines
108-125), with the numeric counter and MRN draw kept alongside their
string renderings. -/
structure PatientData where
  counter : ℕ
  id : String
  mrn : ℤ
  mrnStr : String
  arrival_time : ℚ
  name : String
  gender : String
  birth_date : ℤ
  address : String
  phone : String
deriving DecidableEq, Repr

/-- Zero-padding of the patient counter, as in the f-string
`PAT{counter:06d}`. -/
def pad6 (n : ℕ) : String :=
  let s := toString n
  String.mk (List.replicate (6 - s.length) '0') ++ s

/-- The fixed gender list of source line 110. -/
def genders : List String := ["male", "female", "other"]

/-- `ERDataGenerator.generate_patient` (source lines 108-125): one gender
choice and one MRN `randint` from the python stream, four faker values,
and the current patient counter. -/
def generate_patient (u : ℕ → ℚ) (fk : FakerStreams) (t : ℚ) (ctr k i : ℕ) :
    PatientData × ℕ :=
  let g := pyChoice u genders i
  let bd := fk.birth k
  let m := pyRandint u 100000 999999 g.2
  ({ counter := ctr, id := "PAT" ++ pad6 ctr, mrn := m.1,
     mrnStr := "MRN" ++ toString m.1, arrival_time := t, name := fk.pname k,
     gender := g.1, birth_date := bd, address := fk.addr k,
     phone := fk.phone k }, m.2)

/-- Age in whole years as computed on source line 129:
`(datetime.now().date() - birth_date).days // 365` (floor division). -/
def patientAge (today bd : ℤ) : ℤ := Int.fdiv (today - bd) 365

/-- The age-conditioned candidate pool of `select_condition` (source lines
132-146): the base table plus pediatric (age < 18) or geriatric
(age > 65) extensions. -/
def available_conditions (age : ℤ) : List CondInfo :=
  ER_CONDITIONS ++
    (if age < 18 then pediatricConditions
     else if 65 < age then geriatricConditions
     else [])

/-- The age bracket that fully determines the candidate pool. -/
def ageBracket (age : ℤ) : ℕ := if age < 18 then 0 else if 65 < age then 2 else 1

/-- The condition dictionary returned by `select_condition`
(source lines 155-159). -/
structure SelCondition where
  name : String
  icd10 : String
  severity : String
  avg_duration_min : ℤ
  duration_minutes : ℤ
  discharge_time : ℚ
deriving DecidableEq, Repr

/-- `ERDataGenerator.select_condition` (source lines 127-159): one pool
choice and one duration-multiplier uniform draw; the duration is
`int(avg * uniform(0.5, 2.0))` and discharge is arrival plus that many
minutes. -/
def select_condition (u : ℕ → ℚ) (today : ℤ) (pd : PatientData) (i : ℕ) :
    SelCondition × ℕ :=
  let age := patientAge today pd.birth_date
  let c := pyChoice u (available_conditions age) i
  let mlt := pyUniform u (1/2) 2 c.2
  let d := pyInt ((c.1.avg_duration_min : ℚ) * mlt.1)
  ({ name := c.1.name, icd10 := c.1.icd10, severity := c.1.severity,
     avg_duration_min := c.1.avg_duration_min, duration_minutes := d,
     discharge_time := pd.arrival_time + (d : ℚ) }, mlt.2)

/-- The severity-driven range roll of `generate_vitals` (source lines
166-174): high severity rolls abnormal with probability 0.7, medium with
probability 0.4, anything else is normal; high and medium each consume
one unit draw. -/
def rollRange (u : ℕ → ℚ) (sev : String) (nr ar : ℚ × ℚ) (i : ℕ) : (ℚ × ℚ) × ℕ :=
  if sev = "high" then
    (if (pyRandom u i).1 < 7/10 then ar else nr, (pyRandom u i).2)
  else if sev = "medium" then
    (if (pyRandom u i).1 < 2/5 then ar else nr, (pyRandom u i).2)
  else (nr, i)

/-- The condition-specific overrides of `generate_vitals` (source lines
178-185): Fever forces temperature, Asthma Exacerbation and Shortness of
Breath force respiratory rate and oxygen saturation; each applied
override consumes one further uniform draw. -/
def specialAdjust (u : ℕ → ℚ) (cname vn : String) (v : ℚ) (i : ℕ) : ℚ × ℕ :=
  if cname = "Fever" ∧ vn = "temperature" then pyUniform u 100 103 i
  else if cname = "Asthma Exacerbation" ∨ cname = "Shortness of Breath" then
    if vn = "respiratory_rate" then pyUniform u 20 30 i
    else if vn = "oxygen_saturation" then pyUniform u 88 95 i
    else (v, i)
  else (v, i)

/-- The roll-based uniform sample of one vital, before overrides
(source lines 166-176): sample uniformly from the rolled range. -/
def preVital (u : ℕ → ℚ) (sev : String) (vs : VitalSpec) (i : ℕ) : ℚ × ℕ :=
  pyUniform u (rollRange u sev (vs.nlo, vs.nhi) (vs.alo, vs.ahi) i).1.1
    (rollRange u sev (vs.nlo, vs.nhi) (vs.alo, vs.ahi) i).1.2
    (rollRange u sev (vs.nlo, vs.nhi) (vs.alo, vs.ahi) i).2

/-- One vital of `generate_vitals` (source lines 165-190): roll the range,
sample uniformly from it, apply the condition overrides, round to one
decimal. -/
def sampleVital (u : ℕ → ℚ) (sev cname : String) (vs : VitalSpec) (i : ℕ) : ℚ × ℕ :=
  (round1 (specialAdjust u cname vs.vname (preVital u sev vs i).1 (preVital u sev vs i).2).1,
   (specialAdjust u cname vs.vname (preVital u sev vs i).1 (preVital u sev vs i).2).2)

/-- The no-override variant of `sampleVital` (the same sampling without
source lines 178-185), used to state that a condition name outside the
override set leaves the roll-based sample unchanged. -/
def sampleVitalPlain (u : ℕ → ℚ) (sev : String) (vs : VitalSpec) (i : ℕ) : ℚ × ℕ :=
  (round1 (preVital u sev vs i).1, (preVital u sev vs i).2)

/-- One reading of the vitals dictionary: vital name, rounded value,
unit. -/
structure VitalReading where
  vname : String
  value : ℚ
  unit : String
deriving DecidableEq, Repr

/-- Iteration of `generate_vitals` over a vital-spec list, threading the
python-stream index. -/
def genVitalsAux (u : ℕ → ℚ) (sev cname : String) :
    List VitalSpec → ℕ → List VitalReading × ℕ
  | [], i => ([], i)
  | vs :: rest, i =>
    let r := sampleVital u sev cname vs i
    let tail := genVitalsAux u sev cname rest r.2
    (⟨vs.vname, r.1, vs.unit⟩ :: tail.1, tail.2)

/-- `ERDataGenerator.generate_vitals` (source lines 161-192): one reading
per entry of `VITAL_SIGNS`, in table order. -/
def generate_vitals (u : ℕ → ℚ) (sev cname : String) (i : ℕ) :
    List VitalReading × ℕ :=
  genVitalsAux u sev cname VITAL_SIGNS i

/-- The no-override variant of `generate_vitals`. -/
def genVitalsPlainAux (u : ℕ → ℚ) (sev : String) :
    List VitalSpec → ℕ → List VitalReading × ℕ
  | [], i => ([], i)
  | vs :: rest, i =>
    let r := sampleVitalPlain u sev vs i
    let tail := genVitalsPlainAux u sev rest r.2
    (⟨vs.vname, r.1, vs.unit⟩ :: tail.1, tail.2)

/-- `generate_vitals` with the condition-override block removed. -/
def generate_vitalsPlain (u : ℕ → ℚ) (sev : String) (i : ℕ) :
    List VitalReading × ℕ :=
  genVitalsPlainAux u sev VITAL_SIGNS i

/-- One observation snapshot: a timestamp and the six readings attached
to it. -/
structure Snapshot where
  time : ℚ
  vitals : List VitalReading
deriving DecidableEq, Repr

/-- The per-patient aggregate assembled by `generate_all_data`: patient,
condition and the ordered snapshots. -/
structure EventBundle where
  patient : PatientData
  cond : SelCondition
  snapshots : List Snapshot
deriving DecidableEq, Repr

/-- The per-arrival body of `generate_all_data` (source lines 386-416):
build the patient, select the condition, sample the vitals once, then
attach that single vitals vector to every observation time (arrival, plus
arrival + duration // 2 when duration exceeds 120 minutes). -/
def processArrival (u : ℕ → ℚ) (fk : FakerStreams) (today : ℤ) (t : ℚ)
    (ctr k i : ℕ) : EventBundle × ℕ :=
  let p := generate_patient u fk t ctr k i
  let c := select_condition u today p.1 p.2
  let v := generate_vitals u c.1.severity c.1.name c.2
  let times :=
    t :: (if 120 < c.1.duration_minutes
          then [t + ((Int.fdiv c.1.duration_minutes 2 : ℤ) : ℚ)] else [])
  ({ patient := p.1, cond := c.1,
     snapshots := times.map fun tt => ⟨tt, v.1⟩ }, v.2)

/-- The arrival loop of `generate_all_data` (source lines 381-443),
threading the python-stream index, the patient counter and the faker
index. -/
def assemble (u : ℕ → ℚ) (fk : FakerStreams) (today : ℤ) :
    List ℚ → ℕ → ℕ → ℕ → List EventBundle
  | [], _, _, _ => []
  | t :: ts, i, ctr, k =>
    let b := processArrival u fk today t ctr k i
    b.1 :: assemble u fk today ts b.2 (ctr + 1) (k + 1)

/-- The full pipeline `generate(window, seed)` realised by
`ERDataGenerator.__init__` plus `generate_all_data` (source lines 69-75
and 373-445): the window is `[start, start + 60 * durationHours)` in
minutes, arrivals are generated first, then one bundle per arrival with
the patient counter starting at 1. -/
def generate_all_data (u e : ℕ → ℚ) (fk : FakerStreams) (today : ℤ)
    (start : ℚ) (durationHours : ℤ) (fuel : ℕ) : List EventBundle :=
  let endT := start + 60 * (durationHours : ℚ)
  let r := generate_arrival_times u e start endT fuel
  assemble u fk today r.1 r.2 1 0

/-- Membership of a rounded value in a vital's declared normal range. -/
def inNormal (vs : VitalSpec) (x : ℚ) : Prop := vs.nlo ≤ x ∧ x ≤ vs.nhi

/-- Membership of a rounded value in a vital's declared abnormal range. -/
def inAbnormal (vs : VitalSpec) (x : ℚ) : Prop := vs.alo ≤ x ∧ x ≤ vs.ahi

/-- The override range, if any, that source lines 178-185 force for a
condition name and vital name. -/
def overrideRange (cname vn : String) : Option (ℚ × ℚ) :=
  if cname = "Fever" ∧ vn = "temperature" then some (100, 103)
  else if (cname = "Asthma Exacerbation" ∨ cname = "Shortness of Breath") ∧
      vn = "respiratory_rate" then some (20, 30)
  else if (cname = "Asthma Exacerbation" ∨ cname = "Shortness of Breath") ∧
      vn = "oxygen_saturation" then some (88, 95)
  else none

/-- Membership of a rounded value in the override range forced for the
given condition and vital names (false when no override applies). -/
def overrideOK (cname vn : String) (x : ℚ) : Prop :=
  match overrideRange cname vn with
  | some r => r.1 ≤ x ∧ x ≤ r.2
  | none => False

/-- Default snapshot used with `List.getD` in concrete statements. -/
def dSnap : Snapshot := ⟨0, []⟩

/-- Default patient used with `List.getD` in concrete statements. -/
def dPat : PatientData := ⟨0, "", 0, "", 0, "", "", 0, "", ""⟩

/-- Default condition used with `List.getD` in concrete statements. -/
def dCond : SelCondition := ⟨"", "", "", 0, 0, 0⟩

/-- Default bundle used with `List.getD` in concrete statements. -/
def dBundle : EventBundle := ⟨dPat, dCond, []⟩

/-- A faker oracle with constant values, used in concrete runs. -/
def fkConst (bd : ℤ) : FakerStreams :=
  ⟨fun _ => bd, fun _ => "Alex Doe", fun _ => "1 Main St", fun _ => "555-0100"⟩

/-- Default reading used with `List.getD` in concrete statements. -/
def dReading : VitalReading := ⟨"", 0, ""⟩

/-- Python draw stream of the first concrete run: the fifth unit draw
selects index 20 of a 22-entry pool (index 19 of a 20-entry pool). -/
def uA : ℕ → ℚ := fun n => ([0, 0, 0, 0, 19/20] : List ℚ).getD n 0

/-- Numpy draw stream of the concrete runs: gaps of 30 and then 60
minutes inside a 60-minute window, so exactly one arrival at t = 30. -/
def eA : ℕ → ℚ := fun n => ([2, 4] : List ℚ).getD n 1

/-- Python draw stream of the two-snapshot run: selects `Fracture`
(index 6), duration multiplier 1 (duration 240 > 120), twelve vitals
draws of 0, and a later draw of 4/5 at position 18. -/
def uB : ℕ → ℚ :=
  fun n => ([0, 0, 0, 0, 31/100, 1/3, 0, 0, 0, 0, 0, 0, 0, 0, 0, 0, 0, 0, 4/5] : List ℚ).getD n 0

/-- The all-zero python draw stream. -/
def uZ : ℕ → ℚ := fun _ => 0

/-- Numpy stream giving two 15-minute gaps and then a large one: two
arrivals in a 60-minute window. -/
def eB : ℕ → ℚ := fun n => ([1, 1] : List ℚ).getD n 10

/-- Python draw stream of the Fever run: the fifth unit draw selects
index 3 (`Fever`) of the 20-entry base pool. -/
def uF : ℕ → ℚ := fun n => ([0, 0, 0, 0, 4/25] : List ℚ).getD n 0

section Helpers

variable {u e : ℕ → ℚ}

theorem round_mono_q {x y : ℚ} (h : x ≤ y) : round x ≤ round y := by
  rw [round_eq, round_eq]
  exact Int.floor_mono (by linarith)

/-- Rounding to one decimal place keeps a value inside any enclosing
interval whose endpoints are integer multiples of 1/10. -/
theorem round1_mem (za zb : ℤ) (x : ℚ) (h1 : (za : ℚ)/10 ≤ x) (h2 : x ≤ (zb : ℚ)/10) :
    (za : ℚ)/10 ≤ round1 x ∧ round1 x ≤ (zb : ℚ)/10 := by
  have hza : (za : ℚ) ≤ 10 * x := by linarith
  have hzb : 10 * x ≤ (zb : ℚ) := by linarith
  have l1 : za ≤ round (10 * x) := by
    have h := round_mono_q hza
    rwa [round_intCast] at h
  have l2 : round (10 * x) ≤ zb := by
    have h := round_mono_q hzb
    rwa [round_intCast] at h
  have c1 : (za : ℚ) ≤ ((round (10 * x) : ℤ) : ℚ) := by exact_mod_cast l1
  have c2 : ((round (10 * x) : ℤ) : ℚ) ≤ (zb : ℚ) := by exact_mod_cast l2
  unfold round1
  constructor <;> linarith

theorem pyUniform_mem {i : ℕ} (h0 : 0 ≤ u i) (h1 : u i < 1) {a b : ℚ} (hab : a ≤ b) :
    a ≤ (pyUniform u a b i).1 ∧ (pyUniform u a b i).1 ≤ b := by
  unfold pyUniform
  dsimp only
  constructor <;> nlinarith

/-- A pointwise property of a list's entries and of the default value
transfers to every `getD` access. -/
theorem getD_pred {α : Type} (P : α → Prop) (d : α) (hd : P d) :
    ∀ (l : List α), (∀ x ∈ l, P x) → ∀ n, P (l.getD n d) := by
  intro l
  induction l with
  | nil => intro _ n; simpa [List.getD] using hd
  | cons x xs ih =>
    intro hl n
    cases n with
    | zero => simpa using hl x (by simp)
    | succ m =>
      simpa using ih (fun y hy => hl y (by simp [hy])) m

theorem getD_mem_or_default {α : Type} (l : List α) (n : ℕ) (d : α) :
    l.getD n d ∈ l ∨ l.getD n d = d := by
  induction l generalizing n with
  | nil => right; simp [List.getD]
  | cons x xs ih =>
    cases n with
    | zero => left; simp
    | succ m =>
      rcases ih m with h | h
      · left; simpa using List.mem_cons_of_mem x h
      · right; simpa using h

/-- Every bundle produced by the assembler is the image of
`processArrival` at one of the arrival times. -/
theorem mem_assemble {fk : FakerStreams} {today : ℤ} :
    ∀ {ts : List ℚ} {i ctr k : ℕ} {b : EventBundle},
      b ∈ assemble u fk today ts i ctr k →
      ∃ t ctr0 k0 i0, t ∈ ts ∧ b = (processArrival u fk today t ctr0 k0 i0).1 := by
  intro ts
  induction ts with
  | nil => intro i ctr k b h; simp [assemble] at h
  | cons t ts ih =>
    intro i ctr k b h
    simp only [assemble, List.mem_cons] at h
    rcases h with h | h
    · exact ⟨t, ctr, k, i, by simp, h⟩
    · obtain ⟨t2, c2, k2, i2, ht2, hb⟩ := ih h
      exact ⟨t2, c2, k2, i2, by simp [ht2], hb⟩

/-- Every bundle of a full run is the image of `processArrival`. -/
theorem mem_generate {fk : FakerStreams} {today : ℤ} {start : ℚ} {durH : ℤ} {fuel : ℕ}
    {b : EventBundle} (h : b ∈ generate_all_data u e fk today start durH fuel) :
    ∃ t ctr0 k0 i0, b = (processArrival u fk today t ctr0 k0 i0).1 := by
  simp only [generate_all_data] at h
  obtain ⟨t, c0, k0, i0, _, hb⟩ := mem_assemble h
  exact ⟨t, c0, k0, i0, hb⟩

end Helpers

section VitalsShared

variable {u : ℕ → ℚ}

theorem specialAdjust_pediatric (u : ℕ → ℚ) (vn : String) (v : ℚ) (i : ℕ) :
    specialAdjust u ("Pediatric Fever") vn v i = (v, i) := by
  have h1 : ¬(("Pediatric Fever" = "Fever") ∧ vn = "temperature") :=
    fun h => absurd h.1 (by decide)
  have h2 : ¬("Pediatric Fever" = "Asthma Exacerbation" ∨
      "Pediatric Fever" = "Shortness of Breath") := by decide
  unfold specialAdjust
  rw [if_neg h1, if_neg h2]

theorem sampleVital_pediatric (u : ℕ → ℚ) (sev : String) (vs : VitalSpec) (i : ℕ) :
    sampleVital u sev ("Pediatric Fever") vs i = sampleVitalPlain u sev vs i := by
  simp only [sampleVital, sampleVitalPlain, specialAdjust_pediatric]

theorem genVitalsAux_pediatric (u : ℕ → ℚ) (sev : String) :
    ∀ (l : List VitalSpec) (i : ℕ),
      genVitalsAux u sev ("Pediatric Fever") l i = genVitalsPlainAux u sev l i := by
  intro l
  induction l with
  | nil => intro i; rfl
  | cons vs rest ih =>
    intro i
    simp only [genVitalsAux, genVitalsPlainAux, sampleVital_pediatric, ih]

theorem processArrival_vitals_eq {fk : FakerStreams} {today : ℤ} {t : ℚ} {ctr k i : ℕ}
    {s1 s2 : Snapshot} (h1 : s1 ∈ (processArrival u fk today t ctr k i).1.snapshots)
    (h2 : s2 ∈ (processArrival u fk today t ctr k i).1.snapshots) :
    s1.vitals = s2.vitals := by
  simp only [processArrival, List.mem_map] at h1 h2
  obtain ⟨t1, -, rfl⟩ := h1
  obtain ⟨t2, -, rfl⟩ := h2
  rfl

end VitalsShared

/-- Claim C10: the temperature override of `generate_vitals` matches the
condition name by exact string equality, so the pediatric pool entry
"Pediatric Fever" (which is the first pediatric extension condition) does
not trigger the [100, 103] override: its vitals are exactly those of the
override-free sampler, i.e. the ordinary normal/abnormal-range sample. -/
theorem C10_pediatric_fever_no_override :
    pediatricConditions.map CondInfo.name = ["Pediatric Fever", "Croup"] ∧
    ∀ (u : ℕ → ℚ) (sev : String) (i : ℕ),
      generate_vitals u sev ("Pediatric Fever") i = generate_vitalsPlain u sev i := by
  refine ⟨rfl, ?_⟩
  intro u sev i
  unfold generate_vitals generate_vitalsPlain
  exact genVitalsAux_pediatric u sev VITAL_SIGNS i

unseal Rat.add Rat.mul Rat.inv Rat.sub Rat.ofScientific in
/-- Claim C2 is false on the code: `generate_vitals` is called once per
patient (source line 388) and the resulting vitals dictionary is reused
for every observation time, so a two-snapshot bundle repeats the first
snapshot's readings instead of sampling a fresh vector. In this concrete
run the bundle has two snapshots with identical readings, and a fresh
sampler invocation at the next unconsumed stream position would have
produced different readings. -/
theorem C2_cex :
    ((generate_all_data uB eA (fkConst 0) 10950 0 1 20).headD dBundle).snapshots.length = 2 ∧
    (((generate_all_data uB eA (fkConst 0) 10950 0 1 20).headD dBundle).snapshots.getD 1 dSnap).vitals =
      (((generate_all_data uB eA (fkConst 0) 10950 0 1 20).headD dBundle).snapshots.getD 0 dSnap).vitals ∧
    (((generate_all_data uB eA (fkConst 0) 10950 0 1 20).headD dBundle).snapshots.getD 1 dSnap).vitals ≠
      (generate_vitals uB ("high") ("Fracture") 18).1 := by
  decide

/-- Claim C2 (amended): the vitals vector is sampled once per bundle, and
every snapshot of a bundle carries that same vector; in particular the
second snapshot of a long visit is a repeated copy of the first. -/
theorem C2_snapshots_share_vitals :
    ∀ (u e : ℕ → ℚ) (fk : FakerStreams) (today : ℤ) (start : ℚ) (durH : ℤ) (fuel : ℕ),
      ∀ b ∈ generate_all_data u e fk today start durH fuel,
        ∀ s1 ∈ b.snapshots, ∀ s2 ∈ b.snapshots, s1.vitals = s2.vitals := by
  intro u e fk today start durH fuel b hb s1 h1 s2 h2
  obtain ⟨t, c0, k0, i0, rfl⟩ := mem_generate hb
  exact processArrival_vitals_eq h1 h2

unseal Rat.add Rat.mul Rat.inv Rat.sub Rat.ofScientific in
/-- Witness for C2: the amended theorem applied to the concrete
two-snapshot run. -/
theorem C2_snapshots_share_vitals_w :
    (((generate_all_data uB eA (fkConst 0) 10950 0 1 20).headD dBundle).snapshots.getD 1 dSnap).vitals =
      (((generate_all_data uB eA (fkConst 0) 10950 0 1 20).headD dBundle).snapshots.getD 0 dSnap).vitals :=
  C2_snapshots_share_vitals uB eA (fkConst 0) 10950 0 1 20
    ((generate_all_data uB eA (fkConst 0) 10950 0 1 20).headD dBundle) (by decide)
    (((generate_all_data uB eA (fkConst 0) 10950 0 1 20).headD dBundle).snapshots.getD 1 dSnap)
    (by decide)
    (((generate_all_data uB eA (fkConst 0) 10950 0 1 20).headD dBundle).snapshots.getD 0 dSnap)
    (by decide)

section InvalidWindow

variable {u e : ℕ → ℚ}

theorem arrivalsAux_stop {endT cur : ℚ} {i j : ℕ} (h : ¬ cur < endT) :
    ∀ fuel, arrivalsAux u e endT fuel cur i j = ([], i) := by
  intro fuel
  cases fuel with
  | zero => rfl
  | succ f => simp [arrivalsAux, h]

end InvalidWindow

unseal Rat.add Rat.mul Rat.inv Rat.sub Rat.ofScientific in
/-- Claim C3 is false on the code: neither `__init__` nor
`generate_arrival_times` validates the window. With `duration_hours = 0`
(window end equal to window start) the generator raises no error and
silently produces the empty output. -/
theorem C3_cex :
    generate_all_data uZ uZ (fkConst 0) 0 0 0 100 = [] ∧
    (generate_arrival_times uZ uZ 0 0 100).1 = [] := by
  decide

/-- Claim C3 (amended): the code performs no configuration validation:
whenever the window is empty or inverted (non-positive duration, so
window_end ≤ window_start) it silently returns the empty arrival list and
the empty bundle sequence, with no error signal of any kind. -/
theorem C3_invalid_window_silent_empty :
    ∀ (u e : ℕ → ℚ) (fk : FakerStreams) (today : ℤ) (start : ℚ) (durH : ℤ) (fuel : ℕ),
      durH ≤ 0 →
      (generate_arrival_times u e start (start + 60 * (durH : ℚ)) fuel).1 = [] ∧
      generate_all_data u e fk today start durH fuel = [] := by
  intro u e fk today start durH fuel h
  have hq : (durH : ℚ) ≤ 0 := by exact_mod_cast h
  have h60 : 60 * (durH : ℚ) ≤ 0 := by nlinarith
  have hlt : ¬ start < start + 60 * (durH : ℚ) := not_lt.mpr (by linarith)
  refine ⟨?_, ?_⟩
  · simp [generate_arrival_times, arrivalsAux_stop hlt]
  · simp [generate_all_data, generate_arrival_times, arrivalsAux_stop hlt, assemble]

/-- Witness for C3: the amended theorem applied at a negative duration. -/
theorem C3_invalid_window_silent_empty_w :
    generate_all_data uZ uZ (fkConst 0) 0 0 (-2) 100 = [] :=
  (C3_invalid_window_silent_empty uZ uZ (fkConst 0) 0 0 (-2) 100 (by norm_num)).2

section Counters

variable {u : ℕ → ℚ} {fk : FakerStreams} {today : ℤ}

theorem processArrival_counter (u : ℕ → ℚ) (fk : FakerStreams) (today : ℤ) (t : ℚ)
    (ctr k i : ℕ) : (processArrival u fk today t ctr k i).1.patient.counter = ctr := rfl

theorem assemble_getD_counter :
    ∀ (ts : List ℚ) (i ctr k n : ℕ),
      n < (assemble u fk today ts i ctr k).length →
      ((assemble u fk today ts i ctr k).getD n dBundle).patient.counter = ctr + n := by
  intro ts
  induction ts with
  | nil => intro i ctr k n hn; simp [assemble] at hn
  | cons t ts ih =>
    intro i ctr k n hn
    cases n with
    | zero => simp [assemble, processArrival_counter]
    | succ m =>
      have h2 : m <
          (assemble u fk today ts (processArrival u fk today t ctr k i).2 (ctr + 1) (k + 1)).length := by
        have := hn
        simp only [assemble, List.length_cons] at this
        omega
      simp only [assemble, List.getD_cons_succ]
      rw [ih _ _ _ m h2]
      omega

end Counters

unseal Rat.add Rat.mul Rat.inv Rat.sub Rat.ofScientific in
/-- Claim C4 is false on the code: the MRN token is
`MRN + random.randint(100000, 999999)`, a random draw with no per-run
uniqueness guarantee, not a sequential mint. In this concrete two-patient
run both patients receive the token MRN100000 while remaining distinct
patients. -/
theorem C4_cex :
    (generate_all_data uZ eB (fkConst 0) 10950 0 1 20).length = 2 ∧
    ((generate_all_data uZ eB (fkConst 0) 10950 0 1 20).getD 0 dBundle).patient.mrnStr =
      ((generate_all_data uZ eB (fkConst 0) 10950 0 1 20).getD 1 dBundle).patient.mrnStr ∧
    ((generate_all_data uZ eB (fkConst 0) 10950 0 1 20).getD 0 dBundle).patient ≠
      ((generate_all_data uZ eB (fkConst 0) 10950 0 1 20).getD 1 dBundle).patient := by
  decide

/-- Claim C4 (amended): only the identity token is freshly minted
sequentially: the n-th bundle's patient carries identity counter 1 + n,
so identity tokens are unique within a run; the MRN token is an
independent random six-digit draw and may repeat within a run. -/
theorem C4_identity_counter_sequential :
    ∀ (u e : ℕ → ℚ) (fk : FakerStreams) (today : ℤ) (start : ℚ) (durH : ℤ) (fuel : ℕ)
      (n m : ℕ),
      n < (generate_all_data u e fk today start durH fuel).length →
      m < (generate_all_data u e fk today start durH fuel).length →
      ((generate_all_data u e fk today start durH fuel).getD n dBundle).patient.counter = 1 + n ∧
      (n ≠ m →
        ((generate_all_data u e fk today start durH fuel).getD n dBundle).patient.counter ≠
          ((generate_all_data u e fk today start durH fuel).getD m dBundle).patient.counter) := by
  intro u e fk today start durH fuel n m hn hm
  simp only [generate_all_data] at hn hm ⊢
  constructor
  · exact assemble_getD_counter _ _ _ _ n hn
  · intro hne
    rw [assemble_getD_counter _ _ _ _ n hn, assemble_getD_counter _ _ _ _ m hm]
    omega

unseal Rat.add Rat.mul Rat.inv Rat.sub Rat.ofScientific in
/-- Witness for C4: the amended theorem applied to the concrete
two-patient run. -/
theorem C4_identity_counter_sequential_w :
    ((generate_all_data uZ eB (fkConst 0) 10950 0 1 20).getD 0 dBundle).patient.counter = 1 + 0 :=
  (C4_identity_counter_sequential uZ eB (fkConst 0) 10950 0 1 20 0 1 (by decide) (by decide)).1

section Arrivals

variable {u e : ℕ → ℚ}

theorem lamDraw_pos {i : ℕ} (h0 : 0 ≤ u i) (h1 : u i < 1) (h : ℤ) :
    0 < lamDraw u h i := by
  unfold lamDraw pyUniform
  dsimp only
  split_ifs <;> nlinarith

theorem nextTime_lt {i j : ℕ} (h0 : 0 ≤ u i) (h1 : u i < 1)
    (he : 0 < e j) (cur : ℚ) : cur < nextTime u e cur i j := by
  unfold nextTime
  have hl := lamDraw_pos h0 h1 (hourOf cur)
  have hg : 0 < 60 / lamDraw u (hourOf cur) i * e j := by positivity
  linarith

theorem arrivalsAux_sound {endT : ℚ} (hu : ∀ n, 0 ≤ u n ∧ u n < 1)
    (he : ∀ n, 0 < e n) :
    ∀ (fuel : ℕ) (cur : ℚ) (i j : ℕ),
      (∀ x ∈ (arrivalsAux u e endT fuel cur i j).1, cur < x ∧ x < endT) ∧
      List.Pairwise (· < ·) (arrivalsAux u e endT fuel cur i j).1 := by
  intro fuel
  induction fuel with
  | zero => intro cur i j; simp [arrivalsAux]
  | succ f ih =>
    intro cur i j
    by_cases h1 : cur < endT
    · by_cases h2 : nextTime u e cur i j < endT
      · have hnext := nextTime_lt (hu i).1 (hu i).2 (he j) cur
        obtain ⟨ihmem, ihpw⟩ := ih (nextTime u e cur i j) (i + 1) (j + 1)
        simp only [arrivalsAux, if_pos h1, if_pos h2]
        constructor
        · intro x hx
          rcases List.mem_cons.mp hx with rfl | hx
          · exact ⟨hnext, h2⟩
          · exact ⟨lt_trans hnext (ihmem x hx).1, (ihmem x hx).2⟩
        · exact List.pairwise_cons.mpr ⟨fun x hx => (ihmem x hx).1, ihpw⟩
      · simp [arrivalsAux, if_pos h1, if_neg h2]
    · simp [arrivalsAux, if_neg h1]

end Arrivals

/-- Claim C5: for every window and every seeded draw stream (unit draws in
[0, 1), standard-exponential draws positive, the idealized support of the
exponential distribution), the generated arrival sequence is strictly
increasing and every arrival t satisfies start ≤ t < endT. -/
theorem C5_arrivals_increasing_in_window :
    ∀ (u e : ℕ → ℚ) (start endT : ℚ) (fuel : ℕ),
      (∀ n, 0 ≤ u n ∧ u n < 1) → (∀ n, 0 < e n) →
      List.Pairwise (· < ·) (generate_arrival_times u e start endT fuel).1 ∧
      ∀ t ∈ (generate_arrival_times u e start endT fuel).1, start ≤ t ∧ t < endT := by
  intro u e start endT fuel hu he
  obtain ⟨hmem, hpw⟩ := arrivalsAux_sound hu he fuel start 0 0
  exact ⟨hpw, fun t ht => ⟨le_of_lt (hmem t ht).1, (hmem t ht).2⟩⟩

/-- Witness for C5: the theorem applied to a concrete stream with
constant unit draws 0 and constant exponential draws 1. -/
theorem C5_arrivals_increasing_in_window_w :
    List.Pairwise (· < ·) (generate_arrival_times uZ (fun _ => 1) 0 60 10).1 :=
  (C5_arrivals_increasing_in_window uZ (fun _ => 1) 0 60 10
    (fun n => by constructor <;> norm_num [uZ]) (fun n => by norm_num)).1

section TodayDependence

variable {u : ℕ → ℚ} {fk : FakerStreams}

theorem available_eq_of_bracket {a1 a2 : ℤ} (h : ageBracket a1 = ageBracket a2) :
    available_conditions a1 = available_conditions a2 := by
  unfold ageBracket at h
  unfold available_conditions
  split_ifs at h ⊢ <;> first | rfl | omega

theorem select_condition_bracket_eq {t1 t2 : ℤ}
    (h : ∀ bd, ageBracket (patientAge t1 bd) = ageBracket (patientAge t2 bd)) :
    ∀ (pd : PatientData) (i : ℕ),
      select_condition u t1 pd i = select_condition u t2 pd i := by
  intro pd i
  simp only [select_condition, available_eq_of_bracket (h pd.birth_date)]

theorem processArrival_bracket_eq {t1 t2 : ℤ}
    (h : ∀ bd, ageBracket (patientAge t1 bd) = ageBracket (patientAge t2 bd)) :
    ∀ (t : ℚ) (ctr k i : ℕ),
      processArrival u fk t1 t ctr k i = processArrival u fk t2 t ctr k i := by
  intro t ctr k i
  simp only [processArrival, select_condition_bracket_eq h]

theorem assemble_bracket_eq {t1 t2 : ℤ}
    (h : ∀ bd, ageBracket (patientAge t1 bd) = ageBracket (patientAge t2 bd)) :
    ∀ (ts : List ℚ) (i ctr k : ℕ),
      assemble u fk t1 ts i ctr k = assemble u fk t2 ts i ctr k := by
  intro ts
  induction ts with
  | nil => intro i ctr k; rfl
  | cons t ts ih =>
    intro i ctr k
    simp only [assemble, processArrival_bracket_eq h, ih]

end TodayDependence

unseal Rat.add Rat.mul Rat.inv Rat.sub Rat.ofScientific in
/-- Claim C1 is false on the code: `select_condition` computes the
patient's age from the wall-clock date (`datetime.now().date()`, source
line 129), so the generated bundles depend on the day the program runs,
not only on the seed and window. With identical seeded draw streams and
identical windows, running on day 6205 (the fake birth date gives age 17,
pediatric pool of 22) and on day 10950 (age 30, base pool of 20) selects
different conditions, so the two runs are not bit-identical. -/
theorem C1_cex :
    generate_all_data uA eA (fkConst 0) 6205 0 1 20 ≠
      generate_all_data uA eA (fkConst 0) 10950 0 1 20 := by
  decide

/-- Claim C1 (amended): generation is deterministic only once the
wall-clock date is fixed as an additional input: the output is a pure
function of the draw streams, the window and the age brackets that the
current date induces. Two runs whose dates give every conceivable birth
date the same age bracket (in particular, two runs on the same date)
produce identical bundle sequences. -/
theorem C1_deterministic_given_date :
    ∀ (u e : ℕ → ℚ) (fk : FakerStreams) (start : ℚ) (durH : ℤ) (fuel : ℕ) (t1 t2 : ℤ),
      (∀ bd, ageBracket (patientAge t1 bd) = ageBracket (patientAge t2 bd)) →
      generate_all_data u e fk t1 start durH fuel =
        generate_all_data u e fk t2 start durH fuel := by
  intro u e fk start durH fuel t1 t2 h
  simp only [generate_all_data, assemble_bracket_eq h]

/-- Witness for C1: the amended theorem applied at a fixed concrete
date. -/
theorem C1_deterministic_given_date_w :
    generate_all_data uA eA (fkConst 0) 6205 0 1 20 =
      generate_all_data uA eA (fkConst 0) 6205 0 1 20 :=
  C1_deterministic_given_date uA eA (fkConst 0) 0 1 20 6205 6205 (fun bd => rfl)

section SnapshotStructure

variable {u : ℕ → ℚ} {fk : FakerStreams}

theorem processArrival_snapshots (today : ℤ) (t : ℚ) (ctr k i : ℕ) :
    ((processArrival u fk today t ctr k i).1.snapshots.getD 0 dSnap).time = t ∧
    ((processArrival u fk today t ctr k i).1.cond.duration_minutes ≤ 120 →
      (processArrival u fk today t ctr k i).1.snapshots.length = 1) ∧
    (120 < (processArrival u fk today t ctr k i).1.cond.duration_minutes →
      (processArrival u fk today t ctr k i).1.snapshots.length = 2 ∧
      ((processArrival u fk today t ctr k i).1.snapshots.getD 1 dSnap).time =
        t + ((Int.fdiv (processArrival u fk today t ctr k i).1.cond.duration_minutes 2 : ℤ) : ℚ)) := by
  by_cases h : 120 <
      (select_condition u today (generate_patient u fk t ctr k i).1
        (generate_patient u fk t ctr k i).2).1.duration_minutes
  · simp only [processArrival, if_pos h, List.map_cons, List.map_nil]
    refine ⟨rfl, fun hle => absurd h (by omega), fun _ => ⟨rfl, rfl⟩⟩
  · simp only [processArrival, if_neg h, List.map_cons, List.map_nil]
    exact ⟨rfl, fun _ => rfl, fun hlt => absurd hlt h⟩

end SnapshotStructure

/-- Claim C6: every bundle has exactly one snapshot when
duration_minutes ≤ 120 and exactly two when duration_minutes > 120; the
first snapshot is at the arrival time and the second, when present, is at
arrival + duration_minutes // 2 minutes. -/
theorem C6_snapshot_times :
    ∀ (u e : ℕ → ℚ) (fk : FakerStreams) (today : ℤ) (start : ℚ) (durH : ℤ) (fuel : ℕ),
      ∀ b ∈ generate_all_data u e fk today start durH fuel,
        (b.snapshots.getD 0 dSnap).time = b.patient.arrival_time ∧
        (b.cond.duration_minutes ≤ 120 → b.snapshots.length = 1) ∧
        (120 < b.cond.duration_minutes →
          b.snapshots.length = 2 ∧
          (b.snapshots.getD 1 dSnap).time =
            b.patient.arrival_time + ((Int.fdiv b.cond.duration_minutes 2 : ℤ) : ℚ)) := by
  intro u e fk today start durH fuel b hb
  obtain ⟨t, c0, k0, i0, rfl⟩ := mem_generate hb
  have harr : (processArrival u fk today t c0 k0 i0).1.patient.arrival_time = t := rfl
  rw [harr]
  exact processArrival_snapshots today t c0 k0 i0

unseal Rat.add Rat.mul Rat.inv Rat.sub Rat.ofScientific in
/-- Witness for C6: the theorem applied to the concrete Fracture run
whose sampled duration is 240 > 120 minutes. -/
theorem C6_snapshot_times_w :
    ((generate_all_data uB eA (fkConst 0) 10950 0 1 20).headD dBundle).snapshots.length = 2 :=
  ((C6_snapshot_times uB eA (fkConst 0) 10950 0 1 20
      ((generate_all_data uB eA (fkConst 0) 10950 0 1 20).headD dBundle) (by decide)).2.2
    (by decide)).1

section DurationSpec

variable {u : ℕ → ℚ}

theorem chosen_mem_pool (u : ℕ → ℚ) (a : ℤ) (i : ℕ) :
    (pyChoice u (available_conditions a) i).1 ∈ available_conditions a := by
  unfold pyChoice
  dsimp only
  rcases getD_mem_or_default (available_conditions a)
      (⌊u i * ((available_conditions a).length : ℚ)⌋).toNat default with h | h
  · exact h
  · rw [h]
    unfold available_conditions
    exact List.mem_append_left _ (by decide)

theorem pool_avg_facts : ∀ (a : ℤ), ∀ c ∈ available_conditions a,
    60 ≤ c.avg_duration_min ∧ c.avg_duration_min % 2 = 0 := by
  intro a c hc
  unfold available_conditions at hc
  rcases List.mem_append.mp hc with h | h
  · fin_cases h <;> decide
  · split_ifs at h
    · fin_cases h <;> decide
    · fin_cases h <;> decide
    · simp at h

theorem select_condition_spec (hu : ∀ n, 0 ≤ u n ∧ u n < 1)
    (today : ℤ) (pd : PatientData) (i : ℕ) :
    0 < (select_condition u today pd i).1.duration_minutes ∧
    (select_condition u today pd i).1.discharge_time =
      pd.arrival_time + ((select_condition u today pd i).1.duration_minutes : ℚ) ∧
    ∃ m : ℚ, 1/2 ≤ m ∧ m ≤ 2 ∧
      (select_condition u today pd i).1.duration_minutes =
        round (((select_condition u today pd i).1.avg_duration_min : ℚ) * m) := by
  simp only [select_condition]
  obtain ⟨hA60, hA2⟩ := pool_avg_facts (patientAge today pd.birth_date)
    (pyChoice u (available_conditions (patientAge today pd.birth_date)) i).1
    (chosen_mem_pool u (patientAge today pd.birth_date) i)
  set A := (pyChoice u (available_conditions (patientAge today pd.birth_date)) i).1.avg_duration_min
    with hAdef
  set j := (pyChoice u (available_conditions (patientAge today pd.birth_date)) i).2 with hjdef
  have hm := pyUniform_mem (hu j).1 (hu j).2 (by norm_num : (1/2 : ℚ) ≤ 2)
  set m0 := (pyUniform u (1/2) 2 j).1 with hm0def
  obtain ⟨t, ht⟩ : ∃ t, A = 2 * t := ⟨A / 2, by omega⟩
  have ht30 : 30 ≤ t := by omega
  have hAq : (60 : ℚ) ≤ (A : ℚ) := by exact_mod_cast hA60
  have htq : (A : ℚ) = 2 * (t : ℚ) := by exact_mod_cast ht
  have hx0 : (0 : ℚ) ≤ (A : ℚ) * m0 := by nlinarith [hm.1, hm.2]
  have hpy : pyInt ((A : ℚ) * m0) = ⌊(A : ℚ) * m0⌋ := by
    unfold pyInt
    rw [if_pos hx0]
  have hd_low : t ≤ ⌊(A : ℚ) * m0⌋ := by
    apply Int.le_floor.mpr
    have htq0 : (0 : ℚ) ≤ (t : ℚ) := by exact_mod_cast le_trans (by norm_num) ht30
    nlinarith [hm.1]
  have hd_up : ((⌊(A : ℚ) * m0⌋ : ℤ) : ℚ) ≤ (A : ℚ) * m0 := Int.floor_le _
  have hx_up : (A : ℚ) * m0 ≤ 2 * (A : ℚ) := by nlinarith [hm.2]
  have hd_pos : 0 < ⌊(A : ℚ) * m0⌋ := by omega
  refine ⟨by rw [hpy]; exact hd_pos, by first | trivial | rw [hpy], ?_⟩
  have hA0 : (0 : ℚ) < (A : ℚ) := by linarith
  refine ⟨((⌊(A : ℚ) * m0⌋ : ℤ) : ℚ) / (A : ℚ), ?_, ?_, ?_⟩
  · rw [le_div_iff hA0]
    have : (t : ℚ) ≤ ((⌊(A : ℚ) * m0⌋ : ℤ) : ℚ) := by exact_mod_cast hd_low
    linarith
  · rw [div_le_iff hA0]
    linarith
  · have hcanc : (A : ℚ) * (((⌊(A : ℚ) * m0⌋ : ℤ) : ℚ) / (A : ℚ)) =
        ((⌊(A : ℚ) * m0⌋ : ℤ) : ℚ) := by
      field_simp
    rw [hpy, hcanc, round_intCast]

end DurationSpec

/-- Claim C8: for every bundle, duration_minutes is positive, the
discharge time is strictly after the arrival time, and the duration
equals round(avg_duration_min * m) for some multiplier m in [0.5, 2.0]
(the code truncates avg * uniform(0.5, 2.0) to an integer, which is
round(avg * m) at the witness multiplier m = duration / avg). -/
theorem C8_duration_positive_and_round :
    ∀ (u e : ℕ → ℚ) (fk : FakerStreams) (today : ℤ) (start : ℚ) (durH : ℤ) (fuel : ℕ),
      (∀ n, 0 ≤ u n ∧ u n < 1) →
      ∀ b ∈ generate_all_data u e fk today start durH fuel,
        0 < b.cond.duration_minutes ∧
        b.patient.arrival_time < b.cond.discharge_time ∧
        ∃ m : ℚ, 1/2 ≤ m ∧ m ≤ 2 ∧
          b.cond.duration_minutes = round ((b.cond.avg_duration_min : ℚ) * m) := by
  intro u e fk today start durH fuel hu b hb
  obtain ⟨t, c0, k0, i0, rfl⟩ := mem_generate hb
  have hpc : (processArrival u fk today t c0 k0 i0).1.cond =
      (select_condition u today (generate_patient u fk t c0 k0 i0).1
        (generate_patient u fk t c0 k0 i0).2).1 := rfl
  have hpp : (processArrival u fk today t c0 k0 i0).1.patient =
      (generate_patient u fk t c0 k0 i0).1 := rfl
  rw [hpc, hpp]
  obtain ⟨h1, h2, h3⟩ := select_condition_spec hu today
    (generate_patient u fk t c0 k0 i0).1 (generate_patient u fk t c0 k0 i0).2
  refine ⟨h1, ?_, h3⟩
  rw [h2]
  have hq : (0 : ℚ) <
      ((select_condition u today (generate_patient u fk t c0 k0 i0).1
        (generate_patient u fk t c0 k0 i0).2).1.duration_minutes : ℚ) := by
    exact_mod_cast h1
  linarith

unseal Rat.add Rat.mul Rat.inv Rat.sub Rat.ofScientific in
/-- Witness for C8: the theorem applied to the concrete two-patient
run. -/
theorem C8_duration_positive_and_round_w :
    0 < ((generate_all_data uZ eB (fkConst 0) 10950 0 1 20).headD dBundle).cond.duration_minutes :=
  (C8_duration_positive_and_round uZ eB (fkConst 0) 10950 0 1 20
      (fun n => by constructor <;> norm_num [uZ])
      ((generate_all_data uZ eB (fkConst 0) 10950 0 1 20).headD dBundle) (by decide)).1

section VitalBounds

variable {u : ℕ → ℚ}

theorem rollRange_cases (u : ℕ → ℚ) (sev : String) (nr ar : ℚ × ℚ) (i : ℕ) :
    (rollRange u sev nr ar i).1 = nr ∨ (rollRange u sev nr ar i).1 = ar := by
  unfold rollRange
  split_ifs <;> simp

theorem specialAdjust_spec (u : ℕ → ℚ) (cname vn : String) (v : ℚ) (i : ℕ) :
    (overrideRange cname vn = none ∧ specialAdjust u cname vn v i = (v, i)) ∨
    (∃ a b : ℚ, overrideRange cname vn = some (a, b) ∧
      specialAdjust u cname vn v i = pyUniform u a b i) := by
  unfold specialAdjust overrideRange
  by_cases h1 : cname = "Fever" ∧ vn = "temperature"
  · right
    exact ⟨100, 103, by rw [if_pos h1], by rw [if_pos h1]⟩
  · rw [if_neg h1, if_neg h1]
    by_cases h2 : cname = "Asthma Exacerbation" ∨ cname = "Shortness of Breath"
    · rw [if_pos h2]
      by_cases h3 : vn = "respiratory_rate"
      · right
        exact ⟨20, 30, by rw [if_pos ⟨h2, h3⟩], by rw [if_pos h3]⟩
      · rw [if_neg (fun hh => h3 hh.2), if_neg h3]
        by_cases h4 : vn = "oxygen_saturation"
        · right
          exact ⟨88, 95, by rw [if_pos ⟨h2, h4⟩], by rw [if_pos h4]⟩
        · rw [if_neg (fun hh => h4 hh.2), if_neg h4]
          exact Or.inl ⟨rfl, rfl⟩
    · rw [if_neg (fun hh => h2 hh.1), if_neg (fun hh => h2 hh.1), if_neg h2]
      exact Or.inl ⟨rfl, rfl⟩

theorem overrideRange_mem {c vn : String} {r : ℚ × ℚ} (h : overrideRange c vn = some r) :
    r = (100, 103) ∨ r = (20, 30) ∨ r = (88, 95) := by
  unfold overrideRange at h
  split_ifs at h
  · exact Or.inl (Option.some.inj h).symm
  · exact Or.inr (Or.inl (Option.some.inj h).symm)
  · exact Or.inr (Or.inr (Option.some.inj h).symm)

theorem preVital_bounds (hu : ∀ n, 0 ≤ u n ∧ u n < 1) (sev : String)
    (vs : VitalSpec) (i : ℕ) (hnle : vs.nlo ≤ vs.nhi) (hale : vs.alo ≤ vs.ahi) :
    (vs.nlo ≤ (preVital u sev vs i).1 ∧ (preVital u sev vs i).1 ≤ vs.nhi) ∨
    (vs.alo ≤ (preVital u sev vs i).1 ∧ (preVital u sev vs i).1 ≤ vs.ahi) := by
  unfold preVital
  rcases rollRange_cases u sev (vs.nlo, vs.nhi) (vs.alo, vs.ahi) i with hp | hp <;> rw [hp]
  · exact Or.inl (pyUniform_mem (hu _).1 (hu _).2 hnle)
  · exact Or.inr (pyUniform_mem (hu _).1 (hu _).2 hale)

theorem sampleVital_bounds (hu : ∀ n, 0 ≤ u n ∧ u n < 1)
    (sev cname : String) (vs : VitalSpec) (i : ℕ) (za zb wa wb : ℤ)
    (hn1 : vs.nlo = (za : ℚ)/10) (hn2 : vs.nhi = (zb : ℚ)/10)
    (ha1 : vs.alo = (wa : ℚ)/10) (ha2 : vs.ahi = (wb : ℚ)/10)
    (hnle : vs.nlo ≤ vs.nhi) (hale : vs.alo ≤ vs.ahi) :
    inNormal vs (sampleVital u sev cname vs i).1 ∨
    inAbnormal vs (sampleVital u sev cname vs i).1 ∨
    overrideOK cname vs.vname (sampleVital u sev cname vs i).1 := by
  rcases specialAdjust_spec u cname vs.vname (preVital u sev vs i).1 (preVital u sev vs i).2
    with ⟨hov, heq⟩ | ⟨a, b, hov, heq⟩
  · have hval : (sampleVital u sev cname vs i).1 = round1 (preVital u sev vs i).1 := by
      unfold sampleVital
      rw [heq]
    rw [hval]
    rcases preVital_bounds hu sev vs i hnle hale with ⟨hl, hr⟩ | ⟨hl, hr⟩
    · left
      have hm := round1_mem za zb (preVital u sev vs i).1
        (by rw [← hn1]; exact hl) (by rw [← hn2]; exact hr)
      exact ⟨by rw [hn1]; exact hm.1, by rw [hn2]; exact hm.2⟩
    · right; left
      have hm := round1_mem wa wb (preVital u sev vs i).1
        (by rw [← ha1]; exact hl) (by rw [← ha2]; exact hr)
      exact ⟨by rw [ha1]; exact hm.1, by rw [ha2]; exact hm.2⟩
  · have hval : (sampleVital u sev cname vs i).1 =
        round1 (pyUniform u a b (preVital u sev vs i).2).1 := by
      unfold sampleVital
      rw [heq]
    right; right
    unfold overrideOK
    rw [hov]
    dsimp only
    rw [hval]
    rcases overrideRange_mem hov with hr | hr | hr <;>
      obtain ⟨h1, h2⟩ := Prod.ext_iff.mp hr <;> subst h1 <;> subst h2 <;> dsimp only
    · have hb := pyUniform_mem (hu ((preVital u sev vs i).2)).1
        (hu ((preVital u sev vs i).2)).2 (by norm_num : (100:ℚ) ≤ 103)
      have hm := round1_mem 1000 1030 (pyUniform u 100 103 (preVital u sev vs i).2).1
        (by push_cast; linarith [hb.1]) (by push_cast; linarith [hb.2])
      norm_num at hm
      exact hm
    · have hb := pyUniform_mem (hu ((preVital u sev vs i).2)).1
        (hu ((preVital u sev vs i).2)).2 (by norm_num : (20:ℚ) ≤ 30)
      have hm := round1_mem 200 300 (pyUniform u 20 30 (preVital u sev vs i).2).1
        (by push_cast; linarith [hb.1]) (by push_cast; linarith [hb.2])
      norm_num at hm
      exact hm
    · have hb := pyUniform_mem (hu ((preVital u sev vs i).2)).1
        (hu ((preVital u sev vs i).2)).2 (by norm_num : (88:ℚ) ≤ 95)
      have hm := round1_mem 880 950 (pyUniform u 88 95 (preVital u sev vs i).2).1
        (by push_cast; linarith [hb.1]) (by push_cast; linarith [hb.2])
      norm_num at hm
      exact hm

theorem sampleVital_temp_fever (hu : ∀ n, 0 ≤ u n ∧ u n < 1) (sev : String)
    (vs : VitalSpec) (i : ℕ) (hvn : vs.vname = "temperature") :
    100 ≤ (sampleVital u sev ("Fever") vs i).1 ∧
      (sampleVital u sev ("Fever") vs i).1 ≤ 103 := by
  have hadj : ∀ (v : ℚ) (j : ℕ),
      specialAdjust u ("Fever") vs.vname v j = pyUniform u 100 103 j := by
    intro v j
    unfold specialAdjust
    rw [hvn]
    rw [if_pos ⟨rfl, rfl⟩]
  unfold sampleVital
  rw [hadj]
  dsimp only
  have hb := pyUniform_mem (hu ((preVital u sev vs i).2)).1
    (hu ((preVital u sev vs i).2)).2 (by norm_num : (100:ℚ) ≤ 103)
  have hm := round1_mem 1000 1030 (pyUniform u 100 103 (preVital u sev vs i).2).1
    (by push_cast; linarith [hb.1]) (by push_cast; linarith [hb.2])
  norm_num at hm
  exact hm

theorem genVitalsAux_names (u : ℕ → ℚ) (sev cname : String) :
    ∀ (l : List VitalSpec) (i : ℕ),
      ((genVitalsAux u sev cname l i).1).map (fun r => r.vname) =
        l.map (fun v => v.vname) := by
  intro l
  induction l with
  | nil => intro i; rfl
  | cons vs rest ih =>
    intro i
    simp only [genVitalsAux, List.map_cons, ih]

theorem genVitalsAux_mem (u : ℕ → ℚ) (sev cname : String) :
    ∀ (l : List VitalSpec) (i : ℕ), ∀ rd ∈ (genVitalsAux u sev cname l i).1,
      ∃ vs ∈ l, ∃ j, rd = ⟨vs.vname, (sampleVital u sev cname vs j).1, vs.unit⟩ := by
  intro l
  induction l with
  | nil => intro i rd h; simp [genVitalsAux] at h
  | cons vs rest ih =>
    intro i rd h
    simp only [genVitalsAux, List.mem_cons] at h
    rcases h with rfl | h
    · exact ⟨vs, by simp, i, rfl⟩
    · obtain ⟨vs2, hvs2, j, hj⟩ := ih _ rd h
      exact ⟨vs2, by simp [hvs2], j, hj⟩

theorem vitalspec_deciles : ∀ vs ∈ VITAL_SIGNS,
    ∃ za zb wa wb : ℤ, vs.nlo = (za : ℚ)/10 ∧ vs.nhi = (zb : ℚ)/10 ∧
      vs.alo = (wa : ℚ)/10 ∧ vs.ahi = (wb : ℚ)/10 ∧
      vs.nlo ≤ vs.nhi ∧ vs.alo ≤ vs.ahi := by
  intro vs hvs
  fin_cases hvs
  · exact ⟨970, 995, 950, 1040, by norm_num, by norm_num, by norm_num, by norm_num,
      by norm_num, by norm_num⟩
  · exact ⟨600, 1000, 400, 1500, by norm_num, by norm_num, by norm_num, by norm_num,
      by norm_num, by norm_num⟩
  · exact ⟨900, 1200, 700, 1800, by norm_num, by norm_num, by norm_num, by norm_num,
      by norm_num, by norm_num⟩
  · exact ⟨600, 800, 400, 1200, by norm_num, by norm_num, by norm_num, by norm_num,
      by norm_num, by norm_num⟩
  · exact ⟨120, 200, 80, 300, by norm_num, by norm_num, by norm_num, by norm_num,
      by norm_num, by norm_num⟩
  · exact ⟨950, 1000, 850, 1000, by norm_num, by norm_num, by norm_num, by norm_num,
      by norm_num, by norm_num⟩

end VitalBounds

/-- Claim C7: every snapshot carries exactly six readings, one per named
vital in table order, and each rounded value lies in the vital's declared
normal range, or its declared abnormal range, or the named override range
that the bundle's condition forces for that vital. -/
theorem C7_six_readings_in_declared_ranges :
    ∀ (u e : ℕ → ℚ) (fk : FakerStreams) (today : ℤ) (start : ℚ) (durH : ℤ) (fuel : ℕ),
      (∀ n, 0 ≤ u n ∧ u n < 1) →
      ∀ b ∈ generate_all_data u e fk today start durH fuel, ∀ snap ∈ b.snapshots,
        snap.vitals.length = 6 ∧
        snap.vitals.map (fun r => r.vname) = VITAL_SIGNS.map (fun v => v.vname) ∧
        ∀ rd ∈ snap.vitals, ∃ vs ∈ VITAL_SIGNS, rd.vname = vs.vname ∧ rd.unit = vs.unit ∧
          (inNormal vs rd.value ∨ inAbnormal vs rd.value ∨
            overrideOK b.cond.name vs.vname rd.value) := by
  intro u e fk today start durH fuel hu b hb snap hsnap
  obtain ⟨t, c0, k0, i0, rfl⟩ := mem_generate hb
  have hsv : snap.vitals =
      (generate_vitals u
        (select_condition u today (generate_patient u fk t c0 k0 i0).1
          (generate_patient u fk t c0 k0 i0).2).1.severity
        (select_condition u today (generate_patient u fk t c0 k0 i0).1
          (generate_patient u fk t c0 k0 i0).2).1.name
        (select_condition u today (generate_patient u fk t c0 k0 i0).1
          (generate_patient u fk t c0 k0 i0).2).2).1 := by
    simp only [processArrival, List.mem_map] at hsnap
    obtain ⟨tt, -, rfl⟩ := hsnap
    rfl
  have hcn : (processArrival u fk today t c0 k0 i0).1.cond.name =
      (select_condition u today (generate_patient u fk t c0 k0 i0).1
        (generate_patient u fk t c0 k0 i0).2).1.name := rfl
  rw [hsv, hcn]
  refine ⟨?_, ?_, ?_⟩
  · have hlen := congrArg List.length (genVitalsAux_names u
      (select_condition u today (generate_patient u fk t c0 k0 i0).1
        (generate_patient u fk t c0 k0 i0).2).1.severity
      (select_condition u today (generate_patient u fk t c0 k0 i0).1
        (generate_patient u fk t c0 k0 i0).2).1.name VITAL_SIGNS
      (select_condition u today (generate_patient u fk t c0 k0 i0).1
        (generate_patient u fk t c0 k0 i0).2).2)
    simpa using hlen
  · exact genVitalsAux_names u _ _ VITAL_SIGNS _
  · intro rd hrd
    obtain ⟨vs, hvs, jj, rfl⟩ := genVitalsAux_mem u _ _ VITAL_SIGNS _ rd hrd
    obtain ⟨za, zb, wa, wb, h1, h2, h3, h4, h5, h6⟩ := vitalspec_deciles vs hvs
    exact ⟨vs, hvs, rfl, rfl,
      sampleVital_bounds hu _ _ vs jj za zb wa wb h1 h2 h3 h4 h5 h6⟩

unseal Rat.add Rat.mul Rat.inv Rat.sub Rat.ofScientific in
/-- Witness for C7: the theorem applied to the concrete two-patient run;
the first bundle's first snapshot has exactly six readings. -/
theorem C7_six_readings_in_declared_ranges_w :
    (((generate_all_data uZ eB (fkConst 0) 10950 0 1 20).headD dBundle).snapshots.getD 0
      dSnap).vitals.length = 6 :=
  (C7_six_readings_in_declared_ranges uZ eB (fkConst 0) 10950 0 1 20
      (fun n => by constructor <;> norm_num [uZ])
      ((generate_all_data uZ eB (fkConst 0) 10950 0 1 20).headD dBundle) (by decide)
      (((generate_all_data uZ eB (fkConst 0) 10950 0 1 20).headD dBundle).snapshots.getD 0 dSnap)
      (by decide)).1

/-- Claim C9: in every bundle whose condition name is "Fever", every
temperature reading of every snapshot lies in [100, 103], whatever the
severity-based normal/abnormal roll produced. -/
theorem C9_fever_temperature_range :
    ∀ (u e : ℕ → ℚ) (fk : FakerStreams) (today : ℤ) (start : ℚ) (durH : ℤ) (fuel : ℕ),
      (∀ n, 0 ≤ u n ∧ u n < 1) →
      ∀ b ∈ generate_all_data u e fk today start durH fuel,
        b.cond.name = "Fever" →
        ∀ snap ∈ b.snapshots, ∀ rd ∈ snap.vitals,
          rd.vname = "temperature" → 100 ≤ rd.value ∧ rd.value ≤ 103 := by
  intro u e fk today start durH fuel hu b hb hname snap hsnap rd hrd hvn
  obtain ⟨t, c0, k0, i0, rfl⟩ := mem_generate hb
  have hsv : snap.vitals =
      (generate_vitals u
        (select_condition u today (generate_patient u fk t c0 k0 i0).1
          (generate_patient u fk t c0 k0 i0).2).1.severity
        (select_condition u today (generate_patient u fk t c0 k0 i0).1
          (generate_patient u fk t c0 k0 i0).2).1.name
        (select_condition u today (generate_patient u fk t c0 k0 i0).1
          (generate_patient u fk t c0 k0 i0).2).2).1 := by
    simp only [processArrival, List.mem_map] at hsnap
    obtain ⟨tt, -, rfl⟩ := hsnap
    rfl
  rw [hsv] at hrd
  obtain ⟨vs, hvs, jj, rfl⟩ := genVitalsAux_mem u _ _ VITAL_SIGNS _ rd hrd
  have hvn2 : vs.vname = "temperature" := hvn
  have hnm : (select_condition u today (generate_patient u fk t c0 k0 i0).1
      (generate_patient u fk t c0 k0 i0).2).1.name = "Fever" := hname
  have hres := sampleVital_temp_fever hu
    (select_condition u today (generate_patient u fk t c0 k0 i0).1
      (generate_patient u fk t c0 k0 i0).2).1.severity vs jj hvn2
  constructor
  · have := hres.1
    rw [← hnm] at this
    exact this
  · have := hres.2
    rw [← hnm] at this
    exact this

unseal Rat.add Rat.mul Rat.inv Rat.sub Rat.ofScientific in
/-- Witness for C9: the theorem applied to a concrete run whose only
bundle has condition Fever; its first reading is the temperature. -/
theorem C9_fever_temperature_range_w :
    100 ≤ ((((generate_all_data uF eA (fkConst 0) 10950 0 1 20).headD dBundle).snapshots.getD 0
      dSnap).vitals.getD 0 dReading).value :=
  (C9_fever_temperature_range uF eA (fkConst 0) 10950 0 1 20
      (fun n => getD_pred (fun x => 0 ≤ x ∧ x < 1) 0 (by norm_num)
        ([0, 0, 0, 0, 4/25] : List ℚ) (by intro x hx; fin_cases hx <;> norm_num) n)
      ((generate_all_data uF eA (fkConst 0) 10950 0 1 20).headD dBundle) (by decide)
      (by decide)
      (((generate_all_data uF eA (fkConst 0) 10950 0 1 20).headD dBundle).snapshots.getD 0 dSnap)
      (by decide)
      ((((generate_all_data uF eA (fkConst 0) 10950 0 1 20).headD dBundle).snapshots.getD 0
        dSnap).vitals.getD 0 dReading)
      (by decide) (by decide)).1

end ERGen
